import Mathlib

set_option linter.unusedVariables false

/-!
Verification model of the engine-supervision core of clash-nyanpasu
(`src/backend/tauri/src/core/clash/core.rs`) and the tray proxies diff
(`src/backend/tauri/src/core/tray/proxies.rs`).

External effects (process spawning, IPC calls to the privileged service,
filesystem probes, the HTTP control API) are supplied through explicit
environment records; everything else is a direct translation of the source.
-/

deriving instance DecidableEq for Except

/-! ## Output-drain task of `Instance::start` (Child mode) -/

/-- Exit status carried by `CommandEvent::Terminated`: optional exit code and
optional signal number. -/
structure TerminatedStatus where
  code : Option Int
  signal : Option Int
deriving DecidableEq

/-- Events the output-drain task receives from the spawned core process
(`nyanpasu_utils::core::CommandEvent`). -/
inductive CommandEvent where
  | stdout (line : String)
  | stderr (line : String)
  | error (e : String)
  | terminated (status : TerminatedStatus)
  | delayCheckpointPass
deriving DecidableEq

/-- State of the output-drain task spawned by `Instance::start` in Child mode:
the shared kill flag, the stderr accumulation vector `err_buf`, whether the
mpsc receiver polled once by `start()` is still alive, the first result
delivered to `start()`, how many `recover_core` invocations were triggered,
and how many times `stated_changed_at` was stored. -/
structure DrainState where
  killFlag : Bool
  errBuf : List String
  rxAlive : Bool
  sentResult : Option (Except String Unit)
  recoverCount : Nat
  tsStores : Nat
deriving DecidableEq

/-- Model of `tx.send(v)` on the capacity-1 mpsc channel whose receiver
`start()` polls exactly once: the send succeeds while the receiver is alive,
the first delivered value is what `start()` returns, and afterwards the
receiver is dropped so later sends fail. -/
def sendToStart (s : DrainState) (v : Except String Unit) : DrainState × Bool :=
  if s.rxAlive then
    ({ s with rxAlive := false, sentResult := some v }, true)
  else
    (s, false)

/-- Rendering of an optional integer in the style of Rust Debug output. -/
def optIntRepr : Option Int → String
  | Option.none => "None"
  | some n => "Some(" ++ Int.repr n ++ ")"

/-- Stand-in for the Debug rendering of the exit status used inside the
termination error message; only its shape as a string matters here. -/
def statusRepr (st : TerminatedStatus) : String :=
  "code: " ++ optIntRepr st.code ++ ", signal: " ++ optIntRepr st.signal

/-- One iteration of the drain loop inside `Instance::start` (Child mode),
processing a single `CommandEvent`. Returns `Option.none` on an `unwrap`
panic, otherwise the new state and whether the loop breaks. -/
def processEvent (s : DrainState) : CommandEvent → Option (DrainState × Bool)
  | .stdout _ => some (s, false)
  | .stderr line => some ({ s with errBuf := s.errBuf ++ [line] }, false)
  | .error e =>
    let msg := e ++ "\n" ++ String.intercalate "\n" s.errBuf
    let step := sendToStart s (Except.error msg)
    some ({ step.1 with tsStores := step.1.tsStores + 1 }, true)
  | .terminated st =>
    let s1 := { s with tsStores := s.tsStores + 1 }
    if st.code ≠ some 0 ∨ ¬(st.signal = some 9 ∨ st.signal = some 15) then
      let msg := "core terminated with status: " ++ statusRepr st ++ "\n" ++
        String.intercalate "\n" s1.errBuf
      let step := sendToStart s1 (Except.error msg)
      let s3 :=
        if step.2 = false ∧ step.1.killFlag = false then
          { step.1 with recoverCount := step.1.recoverCount + 1 }
        else step.1
      some (s3, true)
    else
      some (s1, true)
  | .delayCheckpointPass =>
    let s1 := { s with tsStores := s.tsStores + 1 }
    let step := sendToStart s1 (Except.ok ())
    if step.2 then some (step.1, false) else Option.none

/-- The drain loop: process events until a break, the end of the stream, or a
panic (modelled as `Option.none`). -/
def drainLoop : DrainState → List CommandEvent → Option DrainState
  | s, [] => some s
  | s, e :: rest =>
    match processEvent s e with
    | Option.none => Option.none
    | some (s1, true) => some s1
    | some (s1, false) => drainLoop s1 rest

/-- The drain task after `instance.run()` succeeds: the shared kill flag is
first reset to `false` (`kill_flag.store(false, Ordering::Release)`), then the
event loop runs. `initKill` is the flag value left over from before this
start. -/
def drainTaskOnSpawnOk (initKill : Bool) (events : List CommandEvent) :
    Option DrainState :=
  let s0 : DrainState :=
    { killFlag := initKill, errBuf := [], rxAlive := true,
      sentResult := Option.none, recoverCount := 0, tsStores := 0 }
  drainLoop { s0 with killFlag := false } events

/-- The whole drain task spawned by `Instance::start` (Child mode): on a
successful spawn the kill flag is reset and the event loop runs; on a spawn
error (`Err` from `instance.run()`) the raw error is sent to the waiting
`start()` caller unchanged — no stderr buffer exists yet, the kill flag is
not touched, and no recovery or timestamp store happens. -/
def drainTask (initKill : Bool)
    (spawnResult : Except String (List CommandEvent)) : Option DrainState :=
  match spawnResult with
  | .ok events => drainTaskOnSpawnOk initKill events
  | .error err =>
    some { killFlag := initKill, errBuf := [], rxAlive := false,
           sentResult := some (Except.error err), recoverCount := 0,
           tsStores := 0 }

example :
    (drainTaskOnSpawnOk false
        [CommandEvent.delayCheckpointPass,
         CommandEvent.terminated ⟨some 1, Option.none⟩]).map
      (fun s => s.recoverCount) = some 1 := rfl

example :
    (drainTaskOnSpawnOk false
        [CommandEvent.terminated ⟨some 1, Option.none⟩]).map
      (fun s => s.recoverCount) = some 0 := rfl

example :
    (drainTaskOnSpawnOk false
        [CommandEvent.terminated ⟨some 0, some 15⟩]).map
      (fun s => s.recoverCount) = some 0 := rfl

/-- Processing a block of stderr lines only appends them to `err_buf`. -/
theorem drainLoop_stderr_chunk (lines : List String) (s : DrainState)
    (rest : List CommandEvent) :
    drainLoop s (lines.map CommandEvent.stderr ++ rest) =
      drainLoop { s with errBuf := s.errBuf ++ lines } rest := by
  induction lines generalizing s with
  | nil => simp
  | cons l ls ih =>
    simp only [List.map_cons, List.cons_append, drainLoop, processEvent,
      List.append_eq]
    rw [ih]
    congr 1
    simp

/-- C1 (counterexample): in Direct mode, an abnormal termination (exit code 1,
no signal) observed while the kill-intent flag is unset does NOT trigger
`recover_core` when `start()` is still awaiting its first event: the failure
is delivered to `start()` instead, and zero recovery invocations occur, not
the "exactly once" the claim requires. -/
theorem c1_recovery_counterexample :
    (drainTaskOnSpawnOk false
        [CommandEvent.terminated ⟨some 1, Option.none⟩]).map
      (fun s => s.recoverCount) = some 0 ∧
    ¬ (drainTaskOnSpawnOk false
        [CommandEvent.terminated ⟨some 1, Option.none⟩]).map
      (fun s => s.recoverCount) = some 1 := by
  exact ⟨rfl, by decide⟩

/-- C1 (amended): when the drain task observes an abnormal termination
(exit code not `Some(0)`, or a signal other than 9/15), `recover_core` is
triggered exactly once if and only if the kill-intent flag is unset AND the
result channel's receiver is already gone (the `start()` caller has already
received its result); in particular a set kill-intent flag always suppresses
recovery, and a still-listening `start()` caller receives the failure
instead of a recovery being triggered. -/
theorem c1_recovery_amended (s : DrainState) (st : TerminatedStatus)
    (habn : st.code ≠ some 0 ∨ ¬(st.signal = some 9 ∨ st.signal = some 15)) :
    ∃ s1, processEvent s (CommandEvent.terminated st) = some (s1, true) ∧
      s1.recoverCount =
        s.recoverCount +
          (if s.rxAlive = false ∧ s.killFlag = false then 1 else 0) ∧
      (s.killFlag = true → s1.recoverCount = s.recoverCount) := by
  simp only [processEvent, sendToStart]
  rw [if_pos habn]
  cases hrx : s.rxAlive <;> cases hk : s.killFlag <;>
    simp [hrx, hk]

/-- C1 witness: concrete abnormal termination (exit code 1) with kill flag
unset and the receiver already gone triggers exactly one recovery. -/
theorem c1_recovery_amended_witness :
    ∃ s1, processEvent
        ⟨false, [], false, Option.none, 0, 0⟩
        (CommandEvent.terminated ⟨some 1, Option.none⟩) = some (s1, true) ∧
      s1.recoverCount = 1 := by
  obtain ⟨s1, h1, h2, h3⟩ :=
    c1_recovery_amended ⟨false, [], false, Option.none, 0, 0⟩
      ⟨some 1, Option.none⟩ (by decide)
  exact ⟨s1, h1, by simpa using h2⟩

/-- C2 (counterexample): after seven stderr lines and a stream error, the
accumulated buffer holds all seven lines (not a ring buffer of the last 6),
and the captured failure text joins them oldest first (the very first line
comes right after the primary message), contradicting both the bounded-buffer
and the newest-content-first parts of the claim. -/
theorem c2_err_buf_counterexample :
    (drainTaskOnSpawnOk false
        ((["e1", "e2", "e3", "e4", "e5", "e6", "e7"].map CommandEvent.stderr)
          ++ [CommandEvent.error ("boom")])).map
      (fun s => (s.errBuf.length, s.sentResult)) =
      some (7, some (Except.error ("boom\ne1\ne2\ne3\ne4\ne5\ne6\ne7"))) ∧
    ¬ (7 : Nat) ≤ 6 := by
  exact ⟨rfl, by decide⟩

/-- C2 (amended): standard-error lines are accumulated into an unbounded
vector (pre-allocated for 6 entries but never truncated), and the captured
failure `start()` receives is: for a stream error, the primary message
followed by a newline and ALL accumulated stderr lines joined with newlines
in arrival order (oldest first); for an abnormal termination, the
`core terminated with status:` message followed likewise by all accumulated
stderr lines oldest first; for a spawn error, the spawn error message alone,
no stderr lines having been accumulated. -/
theorem c2_error_text_amended (e : String) (lines : List String)
    (st : TerminatedStatus)
    (habn : st.code ≠ some 0 ∨ ¬(st.signal = some 9 ∨ st.signal = some 15)) :
    drainTask false (Except.ok (lines.map CommandEvent.stderr
        ++ [CommandEvent.error e])) =
      some { killFlag := false, errBuf := lines, rxAlive := false,
             sentResult :=
               some (Except.error (e ++ "\n" ++ String.intercalate "\n" lines)),
             recoverCount := 0, tsStores := 1 } ∧
    drainTask false (Except.ok (lines.map CommandEvent.stderr
        ++ [CommandEvent.terminated st])) =
      some { killFlag := false, errBuf := lines, rxAlive := false,
             sentResult :=
               some (Except.error ("core terminated with status: " ++
                 statusRepr st ++ "\n" ++ String.intercalate "\n" lines)),
             recoverCount := 0, tsStores := 1 } ∧
    drainTask false (Except.error e) =
      some { killFlag := false, errBuf := [], rxAlive := false,
             sentResult := some (Except.error e), recoverCount := 0,
             tsStores := 0 } := by
  refine ⟨?_, ?_, rfl⟩
  · show drainTaskOnSpawnOk false (lines.map CommandEvent.stderr
        ++ [CommandEvent.error e]) = _
    unfold drainTaskOnSpawnOk
    rw [drainLoop_stderr_chunk]
    simp [drainLoop, processEvent, sendToStart]
  · show drainTaskOnSpawnOk false (lines.map CommandEvent.stderr
        ++ [CommandEvent.terminated st]) = _
    unfold drainTaskOnSpawnOk
    rw [drainLoop_stderr_chunk]
    simp only [drainLoop, processEvent]
    rw [if_pos habn]
    simp [sendToStart]

/-- C2 witness: two stderr lines followed by an abnormal termination with
exit code 1 (and, for the other paths, a stream error and a spawn error)
produce exactly the oldest-first joined failure texts. -/
theorem c2_error_text_amended_witness :
    drainTask false (Except.ok (([("l1"), ("l2")].map CommandEvent.stderr)
        ++ [CommandEvent.error ("boom")])) =
      some { killFlag := false, errBuf := [("l1"), ("l2")], rxAlive := false,
             sentResult := some (Except.error ("boom\nl1\nl2")),
             recoverCount := 0, tsStores := 1 } ∧
    drainTask false (Except.ok (([("l1"), ("l2")].map CommandEvent.stderr)
        ++ [CommandEvent.terminated ⟨some 1, Option.none⟩])) =
      some { killFlag := false, errBuf := [("l1"), ("l2")], rxAlive := false,
             sentResult := some (Except.error
               ("core terminated with status: code: Some(1), signal: None\nl1\nl2")),
             recoverCount := 0, tsStores := 1 } ∧
    drainTask false (Except.error ("boom")) =
      some { killFlag := false, errBuf := [], rxAlive := false,
             sentResult := some (Except.error ("boom")), recoverCount := 0,
             tsStores := 0 } := by
  have h := c2_error_text_amended ("boom") [("l1"), ("l2")]
    ⟨some 1, Option.none⟩ (by decide)
  have hs : ("core terminated with status: " ++
      statusRepr ⟨some 1, Option.none⟩ ++ "\n" ++
      String.intercalate "\n" [("l1"), ("l2")]) =
      ("core terminated with status: code: Some(1), signal: None\nl1\nl2") := by
    decide
  have h21 := h.2.1
  rw [hs] at h21
  exact ⟨h.1, h21, h.2.2⟩

/-- C9: the drain task stores `false` into the shared kill-intent flag
immediately after a successful spawn, before handling any output event, so the
whole drain run is independent of any kill intent left over from a previous
`stop()`: running with any leftover flag value equals running with the flag
clear. -/
theorem c9_kill_flag_reset (initKill : Bool) (events : List CommandEvent) :
    drainTaskOnSpawnOk initKill events = drainTaskOnSpawnOk false events := rfl

/-! ## Instance: the Child/Service tagged union and its lifecycle methods -/

/-- Engine state as reported to callers
(`nyanpasu_ipc::api::status::CoreState`). -/
inductive CoreState where
  | running
  | stopped (detail : Option String)
deriving DecidableEq

/-- Liveness of the owned child process handle
(`nyanpasu_utils::core::instance::CoreInstanceState`). -/
inductive CoreInstanceState where
  | running
  | stopped
deriving DecidableEq

/-- The fields of the `Instance::Child` variant that its methods touch: the
process handle liveness, the `stated_changed_at` timestamp and the shared
kill-intent flag. -/
structure ChildInst where
  childState : CoreInstanceState
  statedChangedAt : Int
  killFlag : Bool
deriving DecidableEq

/-- The `Instance` tagged union: Child (direct child process) or Service
(delegated to the privileged service). -/
inductive Instance where
  | child (c : ChildInst)
  | service (configPath : String) (coreType : String)
deriving DecidableEq

/-- Payload of a successful remote `status()` call: the service-side core
state and its state-changed timestamp. -/
structure RemoteStatusInfo where
  state : CoreState
  stateChangedAt : Int
deriving DecidableEq

/-- Environment for the Service-mode remote calls an `Instance` method may
perform: the outcome of the `status()` IPC call and of the `stop_core()` IPC
call. -/
structure ServiceEnv where
  statusResult : Except String RemoteStatusInfo
  stopResult : Except String Unit
deriving DecidableEq

/-- Mapping of the service-reported state applied by `state`/`status`:
running stays running, any stopped detail collapses to `Stopped(None)`. -/
def mapRemoteState : CoreState → CoreState
  | .running => .running
  | .stopped _ => .stopped Option.none

/-- Model of `Instance::state`: Child mode reads the process handle directly;
Service mode queries the remote service and degrades a failed call to
`Stopped(None)` via `unwrap_or`. -/
def Instance.state (inst : Instance) (env : ServiceEnv) : CoreState :=
  match inst with
  | .child c =>
    match c.childState with
    | .running => .running
    | .stopped => .stopped Option.none
  | .service _ _ =>
    match env.statusResult with
    | .ok info => mapRemoteState info.state
    | .error _ => .stopped Option.none

/-- Model of `Instance::status`: like `state` but also returning the
state-changed timestamp; a failed remote call yields `(Stopped(None), 0)`. -/
def Instance.status (inst : Instance) (env : ServiceEnv) : CoreState × Int :=
  match inst with
  | .child c =>
    (match c.childState with
     | .running => CoreState.running
     | .stopped => CoreState.stopped Option.none, c.statedChangedAt)
  | .service _ _ =>
    match env.statusResult with
    | .ok info => (mapRemoteState info.state, info.stateChangedAt)
    | .error _ => (CoreState.stopped Option.none, 0)

/-- Primitive effects a `stop()` call can issue, recorded as a trace. -/
inductive StopEff where
  | setKillFlag
  | killProcess
  | stampTimestamp
  | remoteStop
deriving DecidableEq

/-- Environment for `Instance::stop`: the remote-call environment, the result
of `child.kill()`, and the current wall-clock timestamp. -/
structure StopEnv where
  svc : ServiceEnv
  killResult : Except String Unit
  now : Int
deriving DecidableEq

/-- Model of `Instance::stop`: Child mode bails with "core is already
stopped" when the state is already stopped, otherwise sets the kill flag,
kills the process and stamps the timestamp; Service mode forwards to the
remote `stop_core` regardless of the state it just read. Returns the updated
instance, the result, and the trace of primitive effects issued. -/
def Instance.stop (inst : Instance) (env : StopEnv) :
    Instance × Except String Unit × List StopEff :=
  let st := Instance.state inst env.svc
  match inst with
  | .child c =>
    match st with
    | .stopped _ => (inst, Except.error ("core is already stopped"), [])
    | _ =>
      let c1 := { c with killFlag := true }
      match env.killResult with
      | .error e => (.child c1, .error e, [.setKillFlag, .killProcess])
      | .ok _ =>
        (.child { c1 with statedChangedAt := env.now }, .ok (),
          [.setKillFlag, .killProcess, .stampTimestamp])
  | .service _ _ => (inst, env.svc.stopResult, [.remoteStop])

/-- Method-level calls recorded by the restart model. -/
inductive MethodCall where
  | callStop
  | callStart
deriving DecidableEq

/-- Model of `Instance::restart`: stop first when the state is `Running`
(propagating a stop error and aborting), then start. `startResult` abstracts
the outcome of the subsequent `start()` call. -/
def Instance.restart (inst : Instance) (env : StopEnv)
    (startResult : Except String Unit) :
    Instance × Except String Unit × List MethodCall :=
  match Instance.state inst env.svc with
  | .running =>
    let step := Instance.stop inst env
    match step.2.1 with
    | .error e => (step.1, .error e, [.callStop])
    | .ok _ => (step.1, startResult, [.callStop, .callStart])
  | _ => (inst, startResult, [.callStart])

/-- The spec-side program for C8: `stop()` followed by `start()`, aborting on
a stop error. -/
def stopThenStart (inst : Instance) (env : StopEnv)
    (startResult : Except String Unit) :
    Instance × Except String Unit × List MethodCall :=
  let step := Instance.stop inst env
  match step.2.1 with
  | .error e => (step.1, .error e, [.callStop])
  | .ok _ => (step.1, startResult, [.callStop, .callStart])

/-- Repeated `stop()` calls under a fixed environment, keeping the instance
component. -/
def stopIter (env : StopEnv) : Nat → Instance → Instance
  | 0, i => i
  | n + 1, i => stopIter env n (Instance.stop i env).1

/-- C3 (counterexample): a Service (Delegated) instance whose remote status
reports `Stopped` — so `state()` is already `Stopped` — does NOT fail with
`AlreadyStopped` on `stop()`: the stop request is forwarded to the service
and its successful result is returned, contradicting the claim for Delegated
instances. -/
theorem c3_service_stop_counterexample :
    Instance.state (Instance.service ("run.yaml") ("mihomo"))
        ⟨Except.ok ⟨CoreState.stopped Option.none, 0⟩, Except.ok ()⟩ =
      CoreState.stopped Option.none ∧
    Instance.stop (Instance.service ("run.yaml") ("mihomo"))
        ⟨⟨Except.ok ⟨CoreState.stopped Option.none, 0⟩, Except.ok ()⟩,
          Except.ok (), 1⟩ =
      (Instance.service ("run.yaml") ("mihomo"), Except.ok (),
        [StopEff.remoteStop]) := by
  exact ⟨rfl, rfl⟩

/-- C3 (amended): for Direct (Child) instances every `stop()` issued while
the state is already `Stopped` fails with the `core is already stopped`
error, issues no effect, and leaves the instance unchanged (so any sequence
of such calls leaves it unchanged); Delegated (Service) instances perform no
such check: `stop()` always forwards to the remote service and returns its
result. -/
theorem c3_stop_already_stopped_amended (c : ChildInst) (env : StopEnv)
    (p t : String) (h : c.childState = CoreInstanceState.stopped) :
    Instance.stop (Instance.child c) env =
      (Instance.child c, Except.error ("core is already stopped"), []) ∧
    (∀ n : Nat, stopIter env n (Instance.child c) = Instance.child c) ∧
    Instance.stop (Instance.service p t) env =
      (Instance.service p t, env.svc.stopResult, [StopEff.remoteStop]) := by
  have h1 : Instance.stop (Instance.child c) env =
      (Instance.child c, Except.error ("core is already stopped"), []) := by
    simp [Instance.stop, Instance.state, h]
  refine ⟨h1, ?_, rfl⟩
  intro n
  induction n with
  | zero => rfl
  | succ m ih =>
    simp only [stopIter, h1]
    exact ih

/-- C3 witness: a concrete stopped Child instance rejects `stop()` with the
`AlreadyStopped` error unchanged, and a concrete Service instance forwards
the stop. -/
theorem c3_stop_already_stopped_amended_witness :
    Instance.stop (Instance.child ⟨CoreInstanceState.stopped, 7, false⟩)
        ⟨⟨Except.ok ⟨CoreState.running, 0⟩, Except.error ("ipc down")⟩,
          Except.ok (), 42⟩ =
      (Instance.child ⟨CoreInstanceState.stopped, 7, false⟩,
        Except.error ("core is already stopped"), []) ∧
    Instance.stop (Instance.service ("run.yaml") ("clash"))
        ⟨⟨Except.ok ⟨CoreState.running, 0⟩, Except.error ("ipc down")⟩,
          Except.ok (), 42⟩ =
      (Instance.service ("run.yaml") ("clash"), Except.error ("ipc down"),
        [StopEff.remoteStop]) := by
  have h := c3_stop_already_stopped_amended
    ⟨CoreInstanceState.stopped, 7, false⟩
    ⟨⟨Except.ok ⟨CoreState.running, 0⟩, Except.error ("ipc down")⟩,
      Except.ok (), 42⟩
    ("run.yaml") ("clash") rfl
  exact ⟨h.1, h.2.2⟩

/-- C6: for a Delegated (Service) instance, a failed remote status call never
propagates: `state()` reports `Stopped(None)` and `status()` reports
`(Stopped(None), 0)`. -/
theorem c6_service_degrades_to_stopped (p t e : String) (env : ServiceEnv)
    (h : env.statusResult = Except.error e) :
    Instance.state (Instance.service p t) env = CoreState.stopped Option.none ∧
    Instance.status (Instance.service p t) env =
      (CoreState.stopped Option.none, 0) := by
  simp [Instance.state, Instance.status, h]

/-- C6 witness: a concrete disconnected service reports stopped with
timestamp 0 from both `state()` and `status()`. -/
theorem c6_service_degrades_to_stopped_witness :
    Instance.state (Instance.service ("run.yaml") ("mihomo"))
        ⟨Except.error ("connection refused"), Except.ok ()⟩ =
      CoreState.stopped Option.none ∧
    Instance.status (Instance.service ("run.yaml") ("mihomo"))
        ⟨Except.error ("connection refused"), Except.ok ()⟩ =
      (CoreState.stopped Option.none, 0) :=
  c6_service_degrades_to_stopped ("run.yaml") ("mihomo")
    ("connection refused") ⟨Except.error ("connection refused"), Except.ok ()⟩
    rfl

/-- C8: when the observed state is `Running`, `restart()` is the same
function as `stop()` followed by `start()` (same resulting instance, same
result, same method-call trace, a stop error aborting before `start`); when
the state is not `Running`, `restart()` only calls `start()` and returns its
result with the instance untouched. -/
theorem c8_restart_refines_stop_start (inst : Instance) (env : StopEnv)
    (sr : Except String Unit) :
    (Instance.state inst env.svc = CoreState.running →
      Instance.restart inst env sr = stopThenStart inst env sr) ∧
    (Instance.state inst env.svc ≠ CoreState.running →
      Instance.restart inst env sr = (inst, sr, [MethodCall.callStart])) := by
  constructor
  · intro h
    simp [Instance.restart, stopThenStart, h]
  · intro h
    unfold Instance.restart
    cases hst : Instance.state inst env.svc with
    | running => exact absurd hst h
    | stopped d => rfl

/-- C8 witness: a concrete running Child instance restarts exactly as
stop-then-start does, and a concrete stopped Child instance restarts by
starting only. -/
theorem c8_restart_refines_stop_start_witness :
    Instance.restart (Instance.child ⟨CoreInstanceState.running, 3, false⟩)
        ⟨⟨Except.ok ⟨CoreState.running, 0⟩, Except.ok ()⟩, Except.ok (), 9⟩
        (Except.ok ()) =
      stopThenStart (Instance.child ⟨CoreInstanceState.running, 3, false⟩)
        ⟨⟨Except.ok ⟨CoreState.running, 0⟩, Except.ok ()⟩, Except.ok (), 9⟩
        (Except.ok ()) ∧
    Instance.restart (Instance.child ⟨CoreInstanceState.stopped, 3, false⟩)
        ⟨⟨Except.ok ⟨CoreState.running, 0⟩, Except.ok ()⟩, Except.ok (), 9⟩
        (Except.ok ()) =
      (Instance.child ⟨CoreInstanceState.stopped, 3, false⟩, Except.ok (),
        [MethodCall.callStart]) :=
  ⟨(c8_restart_refines_stop_start
      (Instance.child ⟨CoreInstanceState.running, 3, false⟩)
      ⟨⟨Except.ok ⟨CoreState.running, 0⟩, Except.ok ()⟩, Except.ok (), 9⟩
      (Except.ok ())).1 rfl,
   (c8_restart_refines_stop_start
      (Instance.child ⟨CoreInstanceState.stopped, 3, false⟩)
      ⟨⟨Except.ok ⟨CoreState.running, 0⟩, Except.ok ()⟩, Except.ok (), 9⟩
      (Except.ok ())).2 (by decide)⟩

/-! ## CoreManager::change_core -/

/-- Engine variant identifier (`ClashCore` from the config crate; only its
identity matters for this model). -/
inductive ClashCore where
  | clashPremium
  | clash
  | clashRs
  | mihomo
  | mihomoAlpha
deriving DecidableEq

/-- Modelled from the spec: the settings collaborator's draft/apply/discard/
save semantics — staged mutation with explicit commit or rollback; the config
crate implementing `Config::verge()` / `Config::runtime()` is not under src.
`latest` reads the staged value when present, else the applied one. -/
structure Draft (α : Type) where
  applied : α
  draftVal : Option α
deriving DecidableEq

/-- Modelled from the spec: read the latest (staged if present) value. -/
def Draft.latest {α : Type} (d : Draft α) : α := d.draftVal.getD d.applied

/-- Modelled from the spec: stage a new value. -/
def Draft.setDraft {α : Type} (d : Draft α) (v : α) : Draft α :=
  { d with draftVal := some v }

/-- Modelled from the spec: commit the staged value. -/
def Draft.applyDraft {α : Type} (d : Draft α) : Draft α :=
  match d.draftVal with
  | some v => { applied := v, draftVal := Option.none }
  | Option.none => d

/-- Modelled from the spec: roll back the staged value. -/
def Draft.discardDraft {α : Type} (d : Draft α) : Draft α :=
  { d with draftVal := Option.none }

/-- The application state touched by `CoreManager::change_core`: the staged/
applied engine variant, the runtime config draft (tracked abstractly), the
variant persisted on disk by `save_file`, whether prior logs were cleared,
and the variant the running engine was last started with. -/
structure CMState where
  vergeClashCore : Draft (Option ClashCore)
  runtimeDraft : Draft Nat
  savedClashCore : Option ClashCore
  logsCleared : Bool
  engineCore : Option ClashCore
deriving DecidableEq

/-- Outcomes of the external steps `change_core` performs, in order:
`Config::generate()`, `check_config()`, the first `run_core()` and — on the
rollback path — the second `run_core()`. -/
structure ChangeCoreEnv where
  generateResult : Except String Unit
  checkResult : Except String Unit
  runResult1 : Except String Unit
  runResult2 : Except String Unit
deriving DecidableEq

/-- `CoreManager::run_core` as observed from `change_core`: the outcome is
supplied by the environment; on success the engine runs the variant reported
by `Config::verge().latest()` at that moment. -/
def runCoreModel (s : CMState) (r : Except String Unit) :
    CMState × Except String Unit :=
  match r with
  | .ok _ => ({ s with engineCore := s.vergeClashCore.latest }, .ok ())
  | .error e => (s, .error e)

/-- Model of `CoreManager::change_core`: stage the new variant, regenerate
and validate the config, clear logs, run; on success apply and save the
staged configuration; on failure discard it and run again, re-raising the
original error only if that second run succeeds. -/
def change_core (s : CMState) (env : ChangeCoreEnv)
    (clashCore : Option ClashCore) : CMState × Except String Unit :=
  match clashCore with
  | Option.none => (s, Except.error ("clash core is null"))
  | some cc =>
    let s1 := { s with vergeClashCore := s.vergeClashCore.setDraft (some cc) }
    match env.generateResult with
    | .error e => (s1, .error e)
    | .ok _ =>
      match env.checkResult with
      | .error e => (s1, .error e)
      | .ok _ =>
        let s2 := { s1 with logsCleared := true }
        match runCoreModel s2 env.runResult1 with
        | (s3, .ok _) =>
          let s4 := { s3 with
            vergeClashCore := s3.vergeClashCore.applyDraft,
            runtimeDraft := s3.runtimeDraft.applyDraft }
          ({ s4 with savedClashCore := s4.vergeClashCore.latest },
            Except.ok ())
        | (s3, .error e) =>
          let s4 := { s3 with
            vergeClashCore := s3.vergeClashCore.discardDraft,
            runtimeDraft := s3.runtimeDraft.discardDraft }
          match runCoreModel s4 env.runResult2 with
          | (s5, .error e2) => (s5, .error e2)
          | (s5, .ok _) => (s5, .error e)

/-- C4 (counterexample): validation succeeds, the first `run_core` fails with
error `runA`, the rollback re-run also fails with `runB` — `change_core`
then surfaces the RETRY's error `runB`, not the original error `runA` the
claim promises to re-raise. -/
theorem c4_change_core_counterexample :
    (change_core
        ⟨⟨some ClashCore.clashPremium, Option.none⟩, ⟨0, Option.none⟩,
          some ClashCore.clashPremium, false, some ClashCore.clashPremium⟩
        ⟨Except.ok (), Except.ok (), Except.error ("runA"),
          Except.error ("runB")⟩
        (some ClashCore.mihomo)).2 = Except.error ("runB") ∧
    ¬ (change_core
        ⟨⟨some ClashCore.clashPremium, Option.none⟩, ⟨0, Option.none⟩,
          some ClashCore.clashPremium, false, some ClashCore.clashPremium⟩
        ⟨Except.ok (), Except.ok (), Except.error ("runA"),
          Except.error ("runB")⟩
        (some ClashCore.mihomo)).2 = Except.error ("runA") := by
  exact ⟨rfl, by decide⟩

/-- C4 (amended): on validation failure nothing is applied, saved or
restarted (the persisted variant and the running engine are untouched); on a
run failure the staged configuration is discarded and `run_core` is attempted
again under the previous variant — the ORIGINAL error is re-raised only when
that retry succeeds, while a failing retry surfaces the retry's error
instead; only on success is the staged variant applied and saved. -/
theorem c4_change_core_amended (s : CMState) (env : ChangeCoreEnv)
    (cc : ClashCore) :
    (∀ e, env.generateResult = Except.ok () →
      env.checkResult = Except.error e →
      ∃ s1, change_core s env (some cc) = (s1, Except.error e) ∧
        s1.vergeClashCore.applied = s.vergeClashCore.applied ∧
        s1.savedClashCore = s.savedClashCore ∧
        s1.engineCore = s.engineCore) ∧
    (∀ e, env.generateResult = Except.ok () →
      env.checkResult = Except.ok () →
      env.runResult1 = Except.error e → env.runResult2 = Except.ok () →
      ∃ s1, change_core s env (some cc) = (s1, Except.error e) ∧
        s1.vergeClashCore.applied = s.vergeClashCore.applied ∧
        s1.vergeClashCore.draftVal = Option.none ∧
        s1.savedClashCore = s.savedClashCore ∧
        s1.engineCore = s.vergeClashCore.applied) ∧
    (∀ e e2, env.generateResult = Except.ok () →
      env.checkResult = Except.ok () →
      env.runResult1 = Except.error e → env.runResult2 = Except.error e2 →
      (change_core s env (some cc)).2 = Except.error e2) ∧
    (env.generateResult = Except.ok () → env.checkResult = Except.ok () →
      env.runResult1 = Except.ok () →
      ∃ s1, change_core s env (some cc) = (s1, Except.ok ()) ∧
        s1.vergeClashCore.applied = some cc ∧
        s1.savedClashCore = some cc ∧
        s1.engineCore = some cc) := by
  obtain ⟨g, ch, r1, r2⟩ := env
  refine ⟨?_, ?_, ?_, ?_⟩
  · intro e hg hc
    subst hg; subst hc
    exact ⟨_, rfl, rfl, rfl, rfl⟩
  · intro e hg hc h1 h2
    subst hg; subst hc; subst h1; subst h2
    refine ⟨_, rfl, rfl, rfl, rfl, ?_⟩
    simp [runCoreModel, Draft.latest, Draft.discardDraft, Draft.setDraft]
  · intro e e2 hg hc h1 h2
    subst hg; subst hc; subst h1; subst h2
    rfl
  · intro hg hc h1
    subst hg; subst hc; subst h1
    refine ⟨_, rfl, ?_, ?_, ?_⟩ <;>
      simp [runCoreModel, Draft.latest, Draft.setDraft, Draft.applyDraft]

/-- C4 witness: concrete rollback path — validation ok, first run fails with
`runA`, rollback re-run succeeds — the original error `runA` is re-raised,
the staged variant is discarded, and the engine runs the previous variant. -/
theorem c4_change_core_amended_witness :
    ∃ s1, change_core
        ⟨⟨some ClashCore.clashPremium, Option.none⟩, ⟨0, Option.none⟩,
          some ClashCore.clashPremium, false, some ClashCore.clashPremium⟩
        ⟨Except.ok (), Except.ok (), Except.error ("runA"), Except.ok ()⟩
        (some ClashCore.mihomo) = (s1, Except.error ("runA")) ∧
      s1.vergeClashCore.applied = some ClashCore.clashPremium ∧
      s1.vergeClashCore.draftVal = Option.none ∧
      s1.savedClashCore = some ClashCore.clashPremium ∧
      s1.engineCore = some ClashCore.clashPremium := by
  obtain ⟨s1, h1, h2, h3, h4, h5⟩ :=
    (c4_change_core_amended
      ⟨⟨some ClashCore.clashPremium, Option.none⟩, ⟨0, Option.none⟩,
        some ClashCore.clashPremium, false, some ClashCore.clashPremium⟩
      ⟨Except.ok (), Except.ok (), Except.error ("runA"), Except.ok ()⟩
      ClashCore.mihomo).2.1 ("runA") rfl rfl rfl rfl
  exact ⟨s1, h1, by simpa using h2, h3, by simpa using h4, by simpa using h5⟩

/-! ## CoreManager::update_config -/

/-- Delay between config push attempts, in milliseconds. -/
def retrySleepMs : Nat := 250

/-- The `for i in 0..5` retry loop of `CoreManager::update_config`: `r` is
the number of loop iterations left, `i` the current index. Each attempt calls
`api::put_configs`; success breaks, a failure at `i < 4` sleeps 250 ms and
retries, a failure at `i = 4` bails with that error. Returns the result, the
number of attempts made, and the total milliseconds slept. -/
def put_loop (put : Nat → Except String Unit) :
    Nat → Nat → Except String Unit × Nat × Nat
  | 0, _ => (Except.ok (), 0, 0)
  | r + 1, i =>
    match put i with
    | .ok _ => (Except.ok (), 1, 0)
    | .error e =>
      if i < 4 then
        let rec1 := put_loop put r (i + 1)
        (rec1.1, rec1.2.1 + 1, rec1.2.2 + retrySleepMs)
      else
        (.error e, 1, 0)

/-- Outcomes of the external steps `update_config` performs:
`Config::generate()`, `check_config()`, and each `api::put_configs` attempt
(indexed by attempt number). -/
structure UpdateConfigEnv where
  generateResult : Except String Unit
  checkResult : Except String Unit
  putResult : Nat → Except String Unit

/-- Model of `CoreManager::update_config`: regenerate, validate, then push
the run config with the 5-attempt retry loop. -/
def update_config (env : UpdateConfigEnv) : Except String Unit :=
  match env.generateResult with
  | .error e => .error e
  | .ok _ =>
    match env.checkResult with
    | .error e => .error e
    | .ok _ => (put_loop env.putResult 5 0).1

/-- Helper for C5, all-failures case: if every remaining attempt fails, the
loop makes exactly the remaining attempts, sleeps 250 ms between consecutive
ones, and returns the last attempt's error. -/
theorem put_loop_all_fail (put : Nat → Except String Unit) :
    ∀ r i, r + i = 5 → 1 ≤ r →
      (∀ j, i ≤ j → j < 5 → ∃ e, put j = Except.error e) →
      put_loop put r i = (put 4, r, (r - 1) * retrySleepMs) := by
  intro r
  induction r with
  | zero => intro i h5 h1 _; omega
  | succ m ih =>
    intro i h5 h1 hfail
    obtain ⟨e, he⟩ := hfail i (le_refl i) (by omega)
    by_cases hm : m = 0
    · subst hm
      have hi : i = 4 := by omega
      subst hi
      simp only [put_loop, he]
      rw [if_neg (by omega)]
      simp
    · have hi4 : i < 4 := by omega
      simp only [put_loop, he]
      rw [if_pos hi4]
      rw [ih (i + 1) (by omega) (by omega)
        (fun j hj hj5 => hfail j (by omega) hj5)]
      have hms : (m - 1) * retrySleepMs + retrySleepMs = m * retrySleepMs := by
        have hm1 : m - 1 + 1 = m := by omega
        calc (m - 1) * retrySleepMs + retrySleepMs
            = (m - 1 + 1) * retrySleepMs := by rw [Nat.succ_mul]
          _ = m * retrySleepMs := by rw [hm1]
      simp only [Nat.succ_sub_one]
      rw [hms]

/-- Helper for C5, first-success case: if attempt `j` succeeds and all
earlier remaining attempts fail, the loop stops at attempt `j` with success,
having made `j - i + 1` attempts and slept between consecutive ones. -/
theorem put_loop_first_success (put : Nat → Except String Unit) :
    ∀ r i j, i ≤ j → j < i + r → i + r ≤ 5 →
      put j = Except.ok () →
      (∀ k, i ≤ k → k < j → ∃ e, put k = Except.error e) →
      put_loop put r i =
        (Except.ok (), j - i + 1, (j - i) * retrySleepMs) := by
  intro r
  induction r with
  | zero => intro i j hij hjr _ _ _; omega
  | succ m ih =>
    intro i j hij hjr h5 hok hfail
    by_cases hii : i = j
    · subst hii
      simp only [put_loop, hok]
      simp
    · obtain ⟨e, he⟩ := hfail i (le_refl i) (by omega)
      have hi4 : i < 4 := by omega
      simp only [put_loop, he]
      rw [if_pos hi4]
      rw [ih (i + 1) j (by omega) (by omega) (by omega) hok
        (fun k hk hkj => hfail k (by omega) hkj)]
      have h1 : j - i = (j - (i + 1)) + 1 := by omega
      rw [h1, Nat.succ_mul]

/-- C5: `update_config` (after successful regeneration and validation) pushes
the config with at most 5 attempts at 250 ms spacing — if some attempt `j`
(with all earlier ones failing) succeeds it returns success after exactly
`j + 1` attempts and `j` sleeps, and if all 5 attempts fail it returns the
5th attempt's error after exactly 5 attempts and 4 sleeps, making no further
attempts. -/
theorem c5_update_config_retries (env : UpdateConfigEnv)
    (hg : env.generateResult = Except.ok ())
    (hc : env.checkResult = Except.ok ()) :
    ((∀ j, j < 5 → ∃ e, env.putResult j = Except.error e) →
      update_config env = env.putResult 4 ∧
      put_loop env.putResult 5 0 =
        (env.putResult 4, 5, 4 * retrySleepMs)) ∧
    (∀ j, j < 5 → env.putResult j = Except.ok () →
      (∀ k, k < j → ∃ e, env.putResult k = Except.error e) →
      update_config env = Except.ok () ∧
      put_loop env.putResult 5 0 =
        (Except.ok (), j + 1, j * retrySleepMs)) := by
  constructor
  · intro hfail
    have h := put_loop_all_fail env.putResult 5 0 (by omega) (by omega)
      (fun j _ hj5 => hfail j hj5)
    constructor
    · unfold update_config
      rw [hg, hc, h]
    · rw [h]
  · intro j hj hok hfail
    have h := put_loop_first_success env.putResult 5 0 j (by omega)
      (by omega) (by omega) hok (fun k _ hkj => hfail k hkj)
    constructor
    · unfold update_config
      rw [hg, hc, h]
    · rw [h]
      simp

/-- C5 witness: with every push attempt failing with the same error, the
loop makes exactly 5 attempts, sleeps 4 × 250 ms, and surfaces the final
attempt's error; with the third attempt succeeding after two failures, it
stops successfully after 3 attempts. -/
theorem c5_update_config_retries_witness :
    (update_config ⟨Except.ok (), Except.ok (),
        fun _ => Except.error ("refused")⟩ = Except.error ("refused") ∧
      put_loop (fun _ => Except.error ("refused")) 5 0 =
        (Except.error ("refused"), 5, 1000)) ∧
    (update_config ⟨Except.ok (), Except.ok (),
        fun n => if n < 2 then Except.error ("refused") else Except.ok ()⟩ =
        Except.ok () ∧
      put_loop (fun n => if n < 2 then Except.error ("refused")
          else Except.ok ()) 5 0 = (Except.ok (), 3, 500)) := by
  constructor
  · have h := (c5_update_config_retries
      ⟨Except.ok (), Except.ok (), fun _ => Except.error ("refused")⟩
      rfl rfl).1 (fun j _ => ⟨("refused"), rfl⟩)
    exact ⟨by simpa using h.1, by simpa [retrySleepMs] using h.2⟩
  · have h := (c5_update_config_retries
      ⟨Except.ok (), Except.ok (),
        fun n => if n < 2 then Except.error ("refused") else Except.ok ()⟩
      rfl rfl).2 2 (by omega) rfl
      (fun k hk => ⟨("refused"), by interval_cases k <;> rfl⟩)
    exact ⟨h.1, by simpa [retrySleepMs] using h.2⟩

/-! ## find_binary_path -/

/-- Filesystem environment for `find_binary_path`: resolution of the two
search directories and existence of candidate paths. -/
structure FsEnv where
  appDataDir : Except String String
  appInstallDir : Except String String
  fileExists : String → Bool

/-- IO error kinds used by `find_binary_path`. -/
inductive IoErrorKind where
  | notFound
deriving DecidableEq

/-- An IO error: a kind plus a message. -/
structure IoError where
  kind : IoErrorKind
  message : String
deriving DecidableEq

/-- Path join as `PathBuf::join` for a relative file name. -/
def joinPath (d f : String) : String := d ++ "/" ++ f

/-- Model of `find_binary_path`: search the application data directory, then
the application install directory; if the expected executable name exists in
neither, fail with a `NotFound` error naming that executable. -/
def find_binary_path (env : FsEnv) (executableName : String) :
    Except IoError String :=
  match env.appDataDir with
  | .error e => .error ⟨.notFound, e⟩
  | .ok dataDir =>
    let p1 := joinPath dataDir executableName
    if env.fileExists p1 then .ok p1
    else
      match env.appInstallDir with
      | .error e => .error ⟨.notFound, e⟩
      | .ok appDir =>
        let p2 := joinPath appDir executableName
        if env.fileExists p2 then .ok p2
        else .error ⟨.notFound, executableName ++ " not found"⟩

/-- C7: executable resolution searches the data directory first, then the
install directory, and when the expected executable name exists in neither
it fails with a `NotFound` error whose message names the expected executable
filename. -/
theorem c7_find_binary_path_order (env : FsEnv) (exe d a : String)
    (hd : env.appDataDir = Except.ok d)
    (ha : env.appInstallDir = Except.ok a) :
    (env.fileExists (joinPath d exe) = true →
      find_binary_path env exe = Except.ok (joinPath d exe)) ∧
    (env.fileExists (joinPath d exe) = false →
      env.fileExists (joinPath a exe) = true →
      find_binary_path env exe = Except.ok (joinPath a exe)) ∧
    (env.fileExists (joinPath d exe) = false →
      env.fileExists (joinPath a exe) = false →
      find_binary_path env exe =
        Except.error ⟨IoErrorKind.notFound, exe ++ (" not found")⟩) := by
  refine ⟨?_, ?_, ?_⟩ <;> intro h1 <;>
    simp [find_binary_path, hd, ha, h1]

/-- C7 witness: with the executable absent from both directories, the lookup
fails with `NotFound` and the message names the executable. -/
theorem c7_find_binary_path_order_witness :
    find_binary_path
        ⟨Except.ok ("/data"), Except.ok ("/opt/app"), fun _ => false⟩
        ("mihomo") =
      Except.error ⟨IoErrorKind.notFound, ("mihomo not found")⟩ := by
  have h := (c7_find_binary_path_order
    ⟨Except.ok ("/data"), Except.ok ("/opt/app"), fun _ => false⟩
    ("mihomo") ("/data") ("/opt/app") rfl rfl).2.2 rfl rfl
  simpa using h

/-! ## Tray proxies diff (`src/backend/tauri/src/core/tray/proxies.rs`) -/

/-- One tray entry per proxy group: the currently selected proxy, the list of
all proxies of the group, and the group type. -/
structure TrayProxyItem where
  current : Option String
  all : List String
  rtype : String
deriving DecidableEq

/-- The tray proxies map: an insertion-ordered map (`IndexMap`) modelled as
an association list whose keys are unique. -/
abbrev TrayProxies := List (String × TrayProxyItem)

/-- Result of `diff_proxies`: no update, a full tray rebuild, or a list of
partial selection-update actions `(group, from, to)`. -/
inductive TrayUpdateType where
  | none
  | full
  | part (actions : List (String × String × String))
deriving DecidableEq

/-- First-match key lookup, as `IndexMap::get`. -/
def lookupFirst : TrayProxies → String → Option TrayProxyItem
  | [], _ => Option.none
  | (k, v) :: rest, g => if k == g then some v else lookupFirst rest g

/-- The per-group loop body of `diff_proxies`, iterating over the new map
with the actions accumulated so far; `Option.none` models an `unwrap`
panic. -/
def diffGo (oldProxies : TrayProxies) :
    TrayProxies → List (String × String × String) → Option TrayUpdateType
  | [], actions =>
    some (if actions.isEmpty then TrayUpdateType.none
          else TrayUpdateType.part actions)
  | (group, item) :: rest, actions =>
    match lookupFirst oldProxies group with
    | Option.none => Option.none
    | Option.some oldItem =>
      if item.all.length ≠ oldItem.all.length then some TrayUpdateType.full
      else
        let allMatching :=
          ((item.all.zip oldItem.all).filter fun q => q.1 == q.2).length
        if allMatching ≠ oldItem.all.length then some TrayUpdateType.full
        else
          if item.current ≠ oldItem.current then
            match oldItem.current, item.current with
            | Option.some f, Option.some t =>
              diffGo oldProxies rest (actions ++ [(group, f, t)])
            | _, _ => Option.none
          else
            diffGo oldProxies rest actions

/-- Model of `diff_proxies`: full rebuild when the group count or the group
key sequence differs, otherwise per-group comparison collecting selection
changes. -/
def diff_proxies (oldProxies newProxies : TrayProxies) :
    Option TrayUpdateType :=
  if oldProxies.length ≠ newProxies.length then some TrayUpdateType.full
  else
    let groupMatching :=
      (((newProxies.map Prod.fst).zip (oldProxies.map Prod.fst)).filter
        fun q => q.1 == q.2).length
    if groupMatching ≠ oldProxies.length then some TrayUpdateType.full
    else diffGo oldProxies newProxies []

/-- Zipping a list with itself and keeping the positions where both sides
agree keeps every position. -/
theorem zip_self_filter_beq_length (l : List String) :
    ((l.zip l).filter fun q => q.1 == q.2).length = l.length := by
  induction l with
  | nil => rfl
  | cons x xs ih => simp [ih]

/-- In an association list with unique keys, first-match lookup of a member's
key returns that member's value. -/
theorem lookupFirst_of_nodup (p : TrayProxies) (g : String)
    (it : TrayProxyItem) (hnd : (p.map Prod.fst).Nodup)
    (hmem : (g, it) ∈ p) : lookupFirst p g = some it := by
  induction p with
  | nil => cases hmem
  | cons hd tl ih =>
    obtain ⟨k, v⟩ := hd
    simp only [List.map_cons, List.nodup_cons] at hnd
    rcases List.mem_cons.mp hmem with heq | htl
    · cases heq
      simp [lookupFirst]
    · have hk : ¬ (k == g) = true := by
        intro hkg
        have : k = g := by simpa using hkg
        subst this
        exact hnd.1 (List.mem_map.mpr ⟨(k, it), htl, rfl⟩)
      simp only [lookupFirst, hk, Bool.false_eq_true, if_false]
      exact ih hnd.2 htl

/-- Diffing a sublist of groups of `p` against `p` itself finds no change and
keeps the accumulated actions. -/
theorem diffGo_self (p : TrayProxies) (hnd : (p.map Prod.fst).Nodup) :
    ∀ (rest : TrayProxies) (actions : List (String × String × String)),
      (∀ x, x ∈ rest → x ∈ p) →
      diffGo p rest actions =
        some (if actions.isEmpty then TrayUpdateType.none
              else TrayUpdateType.part actions) := by
  intro rest
  induction rest with
  | nil => intro actions _; rfl
  | cons hd tl ih =>
    intro actions hsub
    obtain ⟨g, it⟩ := hd
    have hmem : (g, it) ∈ p := hsub _ (List.mem_cons_self _ _)
    have hlk := lookupFirst_of_nodup p g it hnd hmem
    simp only [diffGo, hlk]
    rw [if_neg (by simp)]
    rw [if_neg (by rw [zip_self_filter_beq_length]; simp)]
    rw [if_neg (by simp)]
    exact ih actions (fun x hx => hsub x (List.mem_cons_of_mem _ hx))

/-- C10: for every tray-proxies map with unique group keys (the `IndexMap`
invariant), diffing a snapshot against itself yields `TrayUpdateType::None`:
neither a full rebuild nor any partial selection-update action. -/
theorem c10_diff_proxies_refl (p : TrayProxies)
    (hnd : (p.map Prod.fst).Nodup) :
    diff_proxies p p = some TrayUpdateType.none := by
  unfold diff_proxies
  rw [if_neg (by simp)]
  rw [if_neg (by rw [zip_self_filter_beq_length]; simp)]
  simpa using diffGo_self p hnd p [] (fun x hx => hx)

/-- C10 witness: a concrete two-group snapshot diffed against itself yields
no tray update. -/
theorem c10_diff_proxies_refl_witness :
    diff_proxies
        [(("global"), ⟨some ("auto"), [("auto"), ("direct")], ("Selector")⟩),
         (("g1"), ⟨some ("a"), [("a"), ("b")], ("URLTest")⟩)]
        [(("global"), ⟨some ("auto"), [("auto"), ("direct")], ("Selector")⟩),
         (("g1"), ⟨some ("a"), [("a"), ("b")], ("URLTest")⟩)] =
      some TrayUpdateType.none :=
  c10_diff_proxies_refl
    [(("global"), ⟨some ("auto"), [("auto"), ("direct")], ("Selector")⟩),
     (("g1"), ⟨some ("a"), [("a"), ("b")], ("URLTest")⟩)]
    (by decide)
